import Mathlib

/-!
Shallow embedding of the indoor layout scorer of
`src/frontend/indoor-analysis.js` (the `calculateDesignFengShui` pipeline
and its helpers).  JavaScript numbers are modelled by exact arithmetic:
integer tallies as `Nat`/`Int`, fractional intermediate values as `Rat`,
and `Math.round` as `jsRound` (round half towards positive infinity).
The JS division `0 / 0` yields `NaN`, for which every `<`/`>` comparison
is false; where that case can arise (`generateRecommendations`) the
embedding guards the division explicitly so that the observable branch
behaviour matches the JavaScript source.
-/

namespace IndoorAnalysis

/-- The five feng-shui elements used by the catalog. -/
inductive Element where
  | wood | fire | earth | metal | water
deriving DecidableEq, Repr

/-- The three energy polarities used by the catalog. -/
inductive Energy where
  | yin | yang | neutral
deriving DecidableEq, Repr

/-- One row of the static `elementFengShuiData` catalog. -/
structure CatalogEntry where
  element : Element
  energy : Energy
  placement : String
  bagua : String
deriving DecidableEq, Repr

/-- The static item-type catalog `elementFengShuiData`; item types not in
the catalog yield `none` (the JS code guards with `if (data)`). -/
def elementFengShuiData : String → Option CatalogEntry
  | "bed" => some ⟨.earth, .yin, "important", "relationship"⟩
  | "sofa" => some ⟨.earth, .yin, "center", "family"⟩
  | "desk" => some ⟨.wood, .yang, "power", "career"⟩
  | "table" => some ⟨.wood, .neutral, "center", "health"⟩
  | "chair" => some ⟨.wood, .yang, "supportive", "support"⟩
  | "wardrobe" => some ⟨.wood, .yin, "storage", "wealth"⟩
  | "bookshelf" => some ⟨.wood, .yang, "knowledge", "knowledge"⟩
  | "tv" => some ⟨.fire, .yang, "entertainment", "fame"⟩
  | "mirror" => some ⟨.water, .yang, "reflective", "expansion"⟩
  | "painting" => some ⟨.fire, .yang, "inspiration", "creativity"⟩
  | "clock" => some ⟨.metal, .yang, "time", "helpful"⟩
  | "vase" => some ⟨.earth, .yin, "decorative", "peace"⟩
  | "rug" => some ⟨.earth, .yin, "grounding", "stability"⟩
  | "curtain" => some ⟨.water, .yin, "privacy", "protection"⟩
  | "window" => some ⟨.metal, .yang, "openness", "opportunities"⟩
  | "door" => some ⟨.wood, .yang, "entry", "career"⟩
  | "fountain" => some ⟨.water, .yang, "flow", "wealth"⟩
  | "crystals" => some ⟨.earth, .yang, "energy", "clarity"⟩
  | "bamboo" => some ⟨.wood, .yang, "growth", "prosperity"⟩
  | "plant" => some ⟨.wood, .yang, "life", "health"⟩
  | "bonsai" => some ⟨.wood, .yin, "balance", "wisdom"⟩
  | "flowers" => some ⟨.wood, .yang, "beauty", "love"⟩
  | "lamp" => some ⟨.fire, .yang, "illumination", "clarity"⟩
  | "chandelier" => some ⟨.fire, .yang, "grandeur", "wealth"⟩
  | "candle" => some ⟨.fire, .yang, "warmth", "passion"⟩
  | _ => none

/-- A placed item on the room canvas (the `placedElements` entries that
reach `calculateDesignFengShui`: symbolic type plus canvas position). -/
structure PlacedItem where
  type : String
  x : ℚ
  y : ℚ
deriving DecidableEq, Repr

/-- The `elementCounts` object of `calculateDesignFengShui`. -/
structure ElementCounts where
  wood : ℕ
  fire : ℕ
  earth : ℕ
  metal : ℕ
  water : ℕ
deriving DecidableEq, Repr

/-- The `energyBalance` object of `calculateDesignFengShui`. -/
structure EnergyBalance where
  yin : ℕ
  yang : ℕ
deriving DecidableEq, Repr

/-- `elementCounts[data.element]++`. -/
def bumpElement (c : ElementCounts) : Element → ElementCounts
  | .wood => { c with wood := c.wood + 1 }
  | .fire => { c with fire := c.fire + 1 }
  | .earth => { c with earth := c.earth + 1 }
  | .metal => { c with metal := c.metal + 1 }
  | .water => { c with water := c.water + 1 }

/-- `energyBalance[data.energy === 'neutral' ? 'yin' : data.energy]++`. -/
def bumpEnergy (e : EnergyBalance) : Energy → EnergyBalance
  | .yin => { e with yin := e.yin + 1 }
  | .neutral => { e with yin := e.yin + 1 }
  | .yang => { e with yang := e.yang + 1 }

/-- The `elements.forEach` tally loop of `calculateDesignFengShui`:
items found in the catalog contribute to both tallies, unknown types
are skipped. -/
def tallyCounts : List PlacedItem → ElementCounts × EnergyBalance
  | [] => (⟨0, 0, 0, 0, 0⟩, ⟨0, 0⟩)
  | i :: rest =>
    let acc := tallyCounts rest
    match elementFengShuiData i.type with
    | some d => (bumpElement acc.1 d.element, bumpEnergy acc.2 d.energy)
    | none => acc

/-- `Math.round` for nonNaN arguments: round half away from zero towards
positive infinity. -/
def jsRound (q : ℚ) : ℤ := ⌊q + 1 / 2⌋

/-- `Object.values(counts).reduce((a, b) => a + b, 0)`. -/
def ElementCounts.total (c : ElementCounts) : ℕ :=
  c.wood + c.fire + c.earth + c.metal + c.water

/-- Sum of `Math.abs(count - ideal)` over the five element counts, with
`ideal = total / 5` (the `variance` accumulator of
`calculateElementBalanceScore`). -/
def ElementCounts.variance (c : ElementCounts) : ℚ :=
  let ideal : ℚ := (c.total : ℚ) / 5
  |(c.wood : ℚ) - ideal| + |(c.fire : ℚ) - ideal| + |(c.earth : ℚ) - ideal| +
    |(c.metal : ℚ) - ideal| + |(c.water : ℚ) - ideal|

/-- `calculateElementBalanceScore` of the source: `0` for an empty tally,
otherwise `Math.round(Math.max(0, 100 - (variance / total) * 50))`. -/
def calculateElementBalanceScore (counts : ElementCounts) : ℤ :=
  if counts.total = 0 then 0
  else jsRound (max 0 (100 - counts.variance / (counts.total : ℚ) * 50))

/-- `calculateEnergyBalanceScore` of the source: `50` for an empty tally,
otherwise a three-tier bucket of the yang ratio. -/
def calculateEnergyBalanceScore (energy : EnergyBalance) : ℤ :=
  let total := energy.yin + energy.yang
  if total = 0 then 50
  else
    let ratio : ℚ := (energy.yang : ℚ) / (total : ℚ)
    if 2 / 5 ≤ ratio ∧ ratio ≤ 3 / 5 then 100
    else if 3 / 10 ≤ ratio ∧ ratio ≤ 7 / 10 then 80
    else 60

/-- `calculateSpacialScore` of the source: a step function of
`elements.length`. -/
def calculateSpacialScore (elements : List PlacedItem) : ℤ :=
  let elementDensity := elements.length
  if elementDensity < 5 then 90
  else if elementDensity < 10 then 85
  else if elementDensity < 15 then 75
  else if elementDensity < 20 then 65
  else 50

/-- `calculateFunctionalScore` of the source: base 70, room-specific
presence bonuses/penalties, capped by `Math.min(100, score)`. -/
def calculateFunctionalScore (elements : List PlacedItem) (roomType : String) : ℤ :=
  let types := elements.map (·.type)
  let score : ℤ := 70
  let score :=
    if roomType = "bedroom" then
      let s := score
      let s := if types.contains "bed" then s + 10 else s
      let s := if types.contains "plant" then s + 5 else s
      let s := if types.contains "mirror" && types.contains "bed" then s - 10 else s
      let s := if types.contains "lamp" then s + 5 else s
      s
    else if roomType = "living" then
      let s := score
      let s := if types.contains "sofa" then s + 10 else s
      let s := if types.contains "plant" then s + 5 else s
      let s := if types.contains "lamp" || types.contains "chandelier" then s + 5 else s
      s
    else if roomType = "office" then
      let s := score
      let s := if types.contains "desk" then s + 10 else s
      let s := if types.contains "chair" then s + 5 else s
      let s := if types.contains "plant" then s + 5 else s
      let s := if types.contains "bookshelf" then s + 5 else s
      s
    else score
  min 100 score

/-- `generateRecommendations` of the source: a fixed sequence of
independent `push` rules (element deficiencies, energy imbalance,
room-specific, clutter) with a single affirmative fallback.  The JS
yang-ratio comparisons are `false` on `NaN` (the `0 / 0` case), which
the explicit `total ≠ 0` guards reproduce. -/
def generateRecommendations (elements : ElementCounts) (energy : EnergyBalance)
    (placed : List PlacedItem) (roomType : String) : List String :=
  let recommendations : List String := []
  let recommendations := recommendations ++
    (if elements.wood < 2 then
      ["Add more wood elements (plants, furniture) for growth energy"] else [])
  let recommendations := recommendations ++
    (if elements.fire = 0 then
      ["Include fire elements (candles, red colors) for passion and warmth"] else [])
  let recommendations := recommendations ++
    (if elements.water = 0 then
      ["Add water elements (fountain, mirror) for flow and prosperity"] else [])
  let recommendations := recommendations ++
    (if elements.earth < 2 then
      ["Incorporate earth elements (crystals, pottery) for stability"] else [])
  let recommendations := recommendations ++
    (if elements.metal = 0 then
      ["Include metal elements (clocks, metal frames) for clarity"] else [])
  let totalEnergy := energy.yin + energy.yang
  let recommendations := recommendations ++
    (if totalEnergy ≠ 0 ∧ (energy.yang : ℚ) / (totalEnergy : ℚ) > 7 / 10 then
      ["Balance yang energy with softer, yin elements (curtains, rugs)"]
    else if totalEnergy ≠ 0 ∧ (energy.yang : ℚ) / (totalEnergy : ℚ) < 3 / 10 then
      ["Add more yang energy with lighting and active elements"]
    else [])
  let recommendations := recommendations ++
    (if roomType = "bedroom" ∧ ¬ placed.any (fun e => e.type = "plant") then
      ["Add plants for fresh air and positive energy"] else [])
  let recommendations := recommendations ++
    (if roomType = "bedroom" ∧ placed.any (fun e => e.type = "mirror") then
      ["⚠️ Avoid placing mirrors directly facing the bed"] else [])
  let recommendations := recommendations ++
    (if placed.length > 15 then
      ["Consider decluttering - too many items can block energy flow"] else [])
  if recommendations = [] then
    ["✓ Your room design shows good feng shui balance!"]
  else recommendations

/-- The `IndoorAnalysis` result object returned by
`calculateDesignFengShui`. -/
structure IndoorAnalysisResult where
  overallScore : ℤ
  elementBalance : ℤ
  energyScore : ℤ
  spacialScore : ℤ
  functionalScore : ℤ
  elementCounts : ElementCounts
  energyBalance : EnergyBalance
  recommendations : List String
deriving DecidableEq, Repr

/-- `calculateDesignFengShui` of the source. -/
def calculateDesignFengShui (elements : List PlacedItem) (roomType : String) :
    IndoorAnalysisResult :=
  let t := tallyCounts elements
  let elementCounts := t.1
  let energyBalance := t.2
  let elementBalance := calculateElementBalanceScore elementCounts
  let energyScore := calculateEnergyBalanceScore energyBalance
  let spacialScore := calculateSpacialScore elements
  let functionalScore := calculateFunctionalScore elements roomType
  let overallScore := jsRound
    ((elementBalance : ℚ) * (3 / 10) + (energyScore : ℚ) * (1 / 4) +
      (spacialScore : ℚ) * (1 / 4) + (functionalScore : ℚ) * (1 / 5))
  { overallScore := overallScore
    elementBalance := elementBalance
    energyScore := energyScore
    spacialScore := spacialScore
    functionalScore := functionalScore
    elementCounts := elementCounts
    energyBalance := energyBalance
    recommendations := generateRecommendations elementCounts energyBalance elements roomType }

end IndoorAnalysis

namespace IndoorAnalysis

/-! ### Helper lemmas -/

/-- Whether a placed item's type is found in the static catalog. -/
def isCatalogued (i : PlacedItem) : Bool := (elementFengShuiData i.type).isSome

theorem jsRound_nonneg {q : ℚ} (h : 0 ≤ q) : 0 ≤ jsRound q := by
  unfold jsRound
  rw [Int.le_floor]
  push_cast
  linarith

theorem jsRound_le_intCast {q : ℚ} {n : ℤ} (h : q ≤ (n : ℚ)) : jsRound q ≤ n := by
  unfold jsRound
  have hle : ⌊q + 1 / 2⌋ ≤ ⌊(n : ℚ) + 1 / 2⌋ := Int.floor_le_floor (by linarith)
  rwa [Int.floor_int_add, show ⌊(1 / 2 : ℚ)⌋ = 0 by norm_num, add_zero] at hle

theorem intCast_le_jsRound {q : ℚ} {n : ℤ} (h : (n : ℚ) ≤ q) : n ≤ jsRound q := by
  unfold jsRound
  have hle : ⌊(n : ℚ) + 1 / 2⌋ ≤ ⌊q + 1 / 2⌋ := Int.floor_le_floor (by linarith)
  rwa [Int.floor_int_add, show ⌊(1 / 2 : ℚ)⌋ = 0 by norm_num, add_zero] at hle

theorem tallyCounts_fst_total (l : List PlacedItem) :
    (tallyCounts l).1.total = l.countP isCatalogued := by
  induction l with
  | nil => rfl
  | cons i rest ih =>
    cases h : elementFengShuiData i.type with
    | none => simp [tallyCounts, h, List.countP_cons, isCatalogued, ih]
    | some d =>
      simp only [ElementCounts.total] at ih
      cases hd : d.element <;>
        simp [tallyCounts, h, hd, List.countP_cons, isCatalogued, bumpElement,
          ElementCounts.total, ih] <;> omega

theorem tallyCounts_snd_total (l : List PlacedItem) :
    (tallyCounts l).2.yin + (tallyCounts l).2.yang = l.countP isCatalogued := by
  induction l with
  | nil => rfl
  | cons i rest ih =>
    cases h : elementFengShuiData i.type with
    | none => simp [tallyCounts, h, List.countP_cons, isCatalogued, ih]
    | some d =>
      cases hd : d.energy <;>
        simp [tallyCounts, h, hd, List.countP_cons, isCatalogued, bumpEnergy, ih] <;>
          omega

theorem tallyCounts_of_none (l : List PlacedItem)
    (h : ∀ i ∈ l, elementFengShuiData i.type = none) :
    tallyCounts l = (⟨0, 0, 0, 0, 0⟩, ⟨0, 0⟩) := by
  induction l with
  | nil => rfl
  | cons i rest ih =>
    have h1 : elementFengShuiData i.type = none := h i (List.mem_cons_self i rest)
    simp [tallyCounts, h1, ih (fun j hj => h j (List.mem_cons_of_mem i hj))]

/-! ### Claim theorems -/

/-- C1: for every placed-item list and room type, the analysis result's
`overallScore` equals `round(0.30 * elementBalance + 0.25 * energyScore +
0.25 * spacialScore + 0.20 * functionalScore)` where the four sub-scores
are the ones returned in the same analysis result. -/
theorem claim1_overallScore_formula (elements : List PlacedItem) (roomType : String) :
    (calculateDesignFengShui elements roomType).overallScore =
      jsRound ((30 / 100) * ((calculateDesignFengShui elements roomType).elementBalance : ℚ) +
        (25 / 100) * ((calculateDesignFengShui elements roomType).energyScore : ℚ) +
        (25 / 100) * ((calculateDesignFengShui elements roomType).spacialScore : ℚ) +
        (20 / 100) * ((calculateDesignFengShui elements roomType).functionalScore : ℚ)) := by
  simp only [calculateDesignFengShui]
  congr 1
  ring

/-- C7: `spacialScore` is a step function of the item count alone,
non-increasing in the count, with value 90 on 0-4 items, 85 on 5-9,
75 on 10-14, 65 on 15-19 and 50 from 20 on; the empty list scores 90. -/
theorem claim7_spacialScore_step (items : List PlacedItem) (roomType : String) :
    ((calculateDesignFengShui items roomType).spacialScore =
      if items.length ≤ 4 then 90 else if items.length ≤ 9 then 85
      else if items.length ≤ 14 then 75 else if items.length ≤ 19 then 65 else 50) ∧
    (∀ other : List PlacedItem, other.length = items.length →
      calculateSpacialScore other = calculateSpacialScore items) ∧
    (∀ more : List PlacedItem, items.length ≤ more.length →
      calculateSpacialScore more ≤ calculateSpacialScore items) ∧
    calculateSpacialScore [] = 90 := by
  refine ⟨?_, ?_, ?_, rfl⟩
  · simp only [calculateDesignFengShui, calculateSpacialScore]
    split_ifs <;> omega
  · intro other h
    simp only [calculateSpacialScore, h]
  · intro more h
    simp only [calculateSpacialScore]
    split_ifs <;> omega

/-- Witness for C7 at concrete inputs. -/
theorem claim7_spacialScore_step_witness :
    ((calculateDesignFengShui [⟨"bed", 0, 0⟩] "bedroom").spacialScore =
      if ([⟨"bed", 0, 0⟩] : List PlacedItem).length ≤ 4 then 90
      else if ([⟨"bed", 0, 0⟩] : List PlacedItem).length ≤ 9 then 85
      else if ([⟨"bed", 0, 0⟩] : List PlacedItem).length ≤ 14 then 75
      else if ([⟨"bed", 0, 0⟩] : List PlacedItem).length ≤ 19 then 65 else 50) ∧
    calculateSpacialScore [⟨"sofa", 1, 1⟩] = calculateSpacialScore [⟨"bed", 0, 0⟩] ∧
    calculateSpacialScore [⟨"bed", 0, 0⟩, ⟨"sofa", 1, 1⟩] ≤ calculateSpacialScore [⟨"bed", 0, 0⟩] :=
  ⟨(claim7_spacialScore_step [⟨"bed", 0, 0⟩] "bedroom").1,
   (claim7_spacialScore_step [⟨"bed", 0, 0⟩] "bedroom").2.1 [⟨"sofa", 1, 1⟩] (by decide),
   (claim7_spacialScore_step [⟨"bed", 0, 0⟩] "bedroom").2.2.1
     [⟨"bed", 0, 0⟩, ⟨"sofa", 1, 1⟩] (by decide)⟩

/-- C8: the indoor scorer is deterministic and depends only on its two
arguments: identical item lists and room types give identical analysis
results. -/
theorem claim8_pure_deterministic (l₁ l₂ : List PlacedItem) (r₁ r₂ : String)
    (hl : l₁ = l₂) (hr : r₁ = r₂) :
    calculateDesignFengShui l₁ r₁ = calculateDesignFengShui l₂ r₂ := by
  rw [hl, hr]

/-- Witness for C8 at a concrete input. -/
theorem claim8_pure_deterministic_witness :
    calculateDesignFengShui [⟨"bed", 0, 0⟩] "bedroom" =
      calculateDesignFengShui [⟨"bed", 0, 0⟩] "bedroom" :=
  claim8_pure_deterministic [⟨"bed", 0, 0⟩] [⟨"bed", 0, 0⟩] "bedroom" "bedroom" rfl rfl

/-- C10: when no item contributes a yin or yang tally (in particular the
empty list), `energyScore` is the guarded neutral default 50, while
`elementBalance` is the 0 used for its own zero-total case. -/
theorem claim10_energy_neutral_default (items : List PlacedItem) (roomType : String)
    (h : ∀ i ∈ items, elementFengShuiData i.type = none) :
    (calculateDesignFengShui items roomType).energyScore = 50 ∧
    (calculateDesignFengShui items roomType).elementBalance = 0 := by
  have ht := tallyCounts_of_none items h
  constructor <;>
    simp [calculateDesignFengShui, ht, calculateEnergyBalanceScore,
      calculateElementBalanceScore, ElementCounts.total]

/-- Witness for C10 at the empty item list. -/
theorem claim10_energy_neutral_default_witness :
    (calculateDesignFengShui [] "bedroom").energyScore = 50 ∧
    (calculateDesignFengShui [] "bedroom").elementBalance = 0 :=
  claim10_energy_neutral_default [] "bedroom" (by simp)

end IndoorAnalysis

namespace IndoorAnalysis

/-- The yang share of an energy tally: `yang / (yin + yang)` in exact
rational arithmetic. -/
def yangShare (e : EnergyBalance) : ℚ :=
  (e.yang : ℚ) / ((e.yin + e.yang : ℕ) : ℚ)

/-- The spec's element-balance formula (section 4.5): 100 minus a penalty
proportional to the sum over the five elements of the absolute deviation
of that element's count from the even split `totalItems / 5`, normalized
by `totalItems` and floored at 0; exactly 0 when `totalItems = 0`.  The
proportionality constant is 50 and the result is rounded, as in the
source. -/
def specElementBalance (counts : ElementCounts) (totalItems : ℕ) : ℤ :=
  if totalItems = 0 then 0
  else
    let evenSplit : ℚ := (totalItems : ℚ) / 5
    let deviation : ℚ :=
      |(counts.wood : ℚ) - evenSplit| + |(counts.fire : ℚ) - evenSplit| +
        |(counts.earth : ℚ) - evenSplit| + |(counts.metal : ℚ) - evenSplit| +
        |(counts.water : ℚ) - evenSplit|
    jsRound (max 0 (100 - 50 * (deviation / (totalItems : ℚ))))

/-- C3: for every placed-item list of catalogued items, `elementBalance`
equals the spec's formula (100 minus a penalty proportional to the total
absolute deviation of the element counts from the even split
`total_items / 5`, normalized by `total_items`, floored at 0), and on
the empty item list it is exactly 0 rather than undefined. -/
theorem claim3_elementBalance_formula (items : List PlacedItem) (roomType : String)
    (hcat : ∀ i ∈ items, (elementFengShuiData i.type).isSome) :
    (calculateDesignFengShui items roomType).elementBalance =
      specElementBalance (calculateDesignFengShui items roomType).elementCounts
        items.length ∧
    (calculateDesignFengShui [] roomType).elementBalance = 0 := by
  have htot : (tallyCounts items).1.total = items.length := by
    rw [tallyCounts_fst_total]
    exact List.countP_eq_length.mpr fun a ha => by
      simpa [isCatalogued] using hcat a ha
  constructor
  · show calculateElementBalanceScore (tallyCounts items).1 =
      specElementBalance (tallyCounts items).1 items.length
    rw [calculateElementBalanceScore, specElementBalance, ElementCounts.variance, htot]
    split_ifs with h
    · rfl
    · congr 2
      ring
  · rfl

/-- Witness for C3 at a concrete two-item list. -/
theorem claim3_elementBalance_formula_witness :
    (calculateDesignFengShui [⟨"bed", 0, 0⟩, ⟨"lamp", 1, 1⟩] "bedroom").elementBalance =
      specElementBalance
        (calculateDesignFengShui [⟨"bed", 0, 0⟩, ⟨"lamp", 1, 1⟩] "bedroom").elementCounts
        ([⟨"bed", 0, 0⟩, ⟨"lamp", 1, 1⟩] : List PlacedItem).length ∧
    (calculateDesignFengShui [] "bedroom").elementBalance = 0 :=
  claim3_elementBalance_formula [⟨"bed", 0, 0⟩, ⟨"lamp", 1, 1⟩] "bedroom" (by decide)

/-- C4: with at least one catalogued item, each catalogued item is
classified yin or yang (neutral counting as yin, so the two tallies sum
to the catalogued-item count), and `energyScore` is the three-tier
bucket of the yang share of the total: 100 inside [0.4, 0.6], 80 inside
[0.3, 0.7] but outside the inner band, 60 otherwise. -/
theorem claim4_energyScore_bucket (items : List PlacedItem) (roomType : String)
    (h : ∃ i ∈ items, (elementFengShuiData i.type).isSome) :
    (calculateDesignFengShui items roomType).energyBalance.yin +
        (calculateDesignFengShui items roomType).energyBalance.yang =
      items.countP isCatalogued ∧
    (calculateDesignFengShui items roomType).energyScore =
      (if 2 / 5 ≤ yangShare (calculateDesignFengShui items roomType).energyBalance ∧
          yangShare (calculateDesignFengShui items roomType).energyBalance ≤ 3 / 5 then 100
       else if 3 / 10 ≤ yangShare (calculateDesignFengShui items roomType).energyBalance ∧
          yangShare (calculateDesignFengShui items roomType).energyBalance ≤ 7 / 10 then 80
       else 60) := by
  have htot := tallyCounts_snd_total items
  have hpos : 0 < items.countP isCatalogued := by
    rw [List.countP_pos_iff]
    obtain ⟨i, hi, hs⟩ := h
    exact ⟨i, hi, by simpa [isCatalogued] using hs⟩
  have hne : (tallyCounts items).2.yin + (tallyCounts items).2.yang ≠ 0 := by omega
  refine ⟨htot, ?_⟩
  show calculateEnergyBalanceScore (tallyCounts items).2 = _
  simp only [calculateEnergyBalanceScore, yangShare]
  rw [if_neg hne]
  rfl

/-- Witness for C4 at a concrete one-item list. -/
theorem claim4_energyScore_bucket_witness :
    (calculateDesignFengShui [⟨"tv", 0, 0⟩] "living").energyBalance.yin +
        (calculateDesignFengShui [⟨"tv", 0, 0⟩] "living").energyBalance.yang =
      ([⟨"tv", 0, 0⟩] : List PlacedItem).countP isCatalogued ∧
    (calculateDesignFengShui [⟨"tv", 0, 0⟩] "living").energyScore =
      (if 2 / 5 ≤ yangShare (calculateDesignFengShui [⟨"tv", 0, 0⟩] "living").energyBalance ∧
          yangShare (calculateDesignFengShui [⟨"tv", 0, 0⟩] "living").energyBalance ≤ 3 / 5 then 100
       else if 3 / 10 ≤ yangShare (calculateDesignFengShui [⟨"tv", 0, 0⟩] "living").energyBalance ∧
          yangShare (calculateDesignFengShui [⟨"tv", 0, 0⟩] "living").energyBalance ≤ 7 / 10 then 80
       else 60) :=
  claim4_energyScore_bucket [⟨"tv", 0, 0⟩] "living" (by decide)

end IndoorAnalysis

namespace IndoorAnalysis

/-- C5: `functionalScore` starts from a base of 70 with room-type-specific
additive presence bonuses and penalties; for "bedroom" it gains 10 when a
bed is present and loses 10 when both a mirror and a bed are present
(plus the +5 plant and lamp bonuses of the source, capped at 100), and
for a room type outside bedroom/living/office it is exactly the base 70,
with no bonuses and no error. -/
theorem claim5_functionalScore_additive (items : List PlacedItem) :
    ((calculateDesignFengShui items "bedroom").functionalScore =
      min 100 (70 + (if (items.map PlacedItem.type).contains "bed" then 10 else 0)
        + (if (items.map PlacedItem.type).contains "plant" then 5 else 0)
        - (if (items.map PlacedItem.type).contains "mirror" &&
              (items.map PlacedItem.type).contains "bed" then 10 else 0)
        + (if (items.map PlacedItem.type).contains "lamp" then 5 else 0))) ∧
    ∀ roomType : String,
      roomType ≠ "bedroom" → roomType ≠ "living" → roomType ≠ "office" →
        (calculateDesignFengShui items roomType).functionalScore = 70 := by
  constructor
  · show calculateFunctionalScore items "bedroom" = _
    simp only [calculateFunctionalScore, if_pos rfl]
    split_ifs <;> decide
  · intro roomType h1 h2 h3
    show calculateFunctionalScore items roomType = 70
    simp only [calculateFunctionalScore, if_neg h1, if_neg h2, if_neg h3]
    decide

/-- Witness for C5: a bedroom with a bed and a mirror scores
70 + 10 - 10 = 70, and an unrecognized room type scores the base 70. -/
theorem claim5_functionalScore_additive_witness :
    ((calculateDesignFengShui [⟨"bed", 0, 0⟩, ⟨"mirror", 1, 1⟩] "bedroom").functionalScore =
      min 100 (70 +
        (if (([⟨"bed", 0, 0⟩, ⟨"mirror", 1, 1⟩] : List PlacedItem).map PlacedItem.type).contains "bed"
          then 10 else 0)
        + (if (([⟨"bed", 0, 0⟩, ⟨"mirror", 1, 1⟩] : List PlacedItem).map PlacedItem.type).contains "plant"
          then 5 else 0)
        - (if (([⟨"bed", 0, 0⟩, ⟨"mirror", 1, 1⟩] : List PlacedItem).map PlacedItem.type).contains "mirror" &&
              (([⟨"bed", 0, 0⟩, ⟨"mirror", 1, 1⟩] : List PlacedItem).map PlacedItem.type).contains "bed"
          then 10 else 0)
        + (if (([⟨"bed", 0, 0⟩, ⟨"mirror", 1, 1⟩] : List PlacedItem).map PlacedItem.type).contains "lamp"
          then 5 else 0))) ∧
    (calculateDesignFengShui [⟨"bed", 0, 0⟩, ⟨"mirror", 1, 1⟩] "kitchen").functionalScore = 70 :=
  ⟨(claim5_functionalScore_additive [⟨"bed", 0, 0⟩, ⟨"mirror", 1, 1⟩]).1,
   (claim5_functionalScore_additive [⟨"bed", 0, 0⟩, ⟨"mirror", 1, 1⟩]).2 "kitchen"
     (by decide) (by decide) (by decide)⟩

/-- The spec's recommendation generator (section 4.5): independent rule
groups evaluated in the fixed priority order - element deficiencies
first, then energy imbalance, then room-specific warnings, then the
clutter warning - with exactly one affirmative message when no rule
fires. -/
def specRecommendations (elements : ElementCounts) (energy : EnergyBalance)
    (placed : List PlacedItem) (roomType : String) : List String :=
  let deficiencyRules : List String :=
    (if elements.wood < 2 then
      ["Add more wood elements (plants, furniture) for growth energy"] else []) ++
    (if elements.fire = 0 then
      ["Include fire elements (candles, red colors) for passion and warmth"] else []) ++
    (if elements.water = 0 then
      ["Add water elements (fountain, mirror) for flow and prosperity"] else []) ++
    (if elements.earth < 2 then
      ["Incorporate earth elements (crystals, pottery) for stability"] else []) ++
    (if elements.metal = 0 then
      ["Include metal elements (clocks, metal frames) for clarity"] else [])
  let totalEnergy := energy.yin + energy.yang
  let energyRules : List String :=
    if totalEnergy ≠ 0 ∧ (energy.yang : ℚ) / (totalEnergy : ℚ) > 7 / 10 then
      ["Balance yang energy with softer, yin elements (curtains, rugs)"]
    else if totalEnergy ≠ 0 ∧ (energy.yang : ℚ) / (totalEnergy : ℚ) < 3 / 10 then
      ["Add more yang energy with lighting and active elements"]
    else []
  let roomRules : List String :=
    (if roomType = "bedroom" ∧ ¬ placed.any (fun e => e.type = "plant") then
      ["Add plants for fresh air and positive energy"] else []) ++
    (if roomType = "bedroom" ∧ placed.any (fun e => e.type = "mirror") then
      ["⚠️ Avoid placing mirrors directly facing the bed"] else [])
  let clutterRule : List String :=
    if placed.length > 15 then
      ["Consider decluttering - too many items can block energy flow"] else []
  let fired := deficiencyRules ++ energyRules ++ roomRules ++ clutterRule
  if fired = [] then ["✓ Your room design shows good feng shui balance!"]
  else fired

theorem ite_nil_ne_nil (l : List String) (m : String) :
    (if l = [] then [m] else l) ≠ [] := by
  split_ifs with h
  · simp
  · exact h

/-- C6: the recommendation list equals the four independent rule groups
concatenated in the fixed priority order (element deficiencies, energy
imbalance, room-specific warnings, clutter warning) with a single
affirmative fallback, it is never empty, and on the empty item list all
five element-deficiency messages appear. -/
theorem claim6_recommendations_rules (c : ElementCounts) (e : EnergyBalance)
    (placed : List PlacedItem) (roomType : String) :
    generateRecommendations c e placed roomType =
      specRecommendations c e placed roomType ∧
    generateRecommendations c e placed roomType ≠ [] ∧
    ("Add more wood elements (plants, furniture) for growth energy" ∈
        (calculateDesignFengShui [] roomType).recommendations ∧
      "Include fire elements (candles, red colors) for passion and warmth" ∈
        (calculateDesignFengShui [] roomType).recommendations ∧
      "Add water elements (fountain, mirror) for flow and prosperity" ∈
        (calculateDesignFengShui [] roomType).recommendations ∧
      "Incorporate earth elements (crystals, pottery) for stability" ∈
        (calculateDesignFengShui [] roomType).recommendations ∧
      "Include metal elements (clocks, metal frames) for clarity" ∈
        (calculateDesignFengShui [] roomType).recommendations) := by
  refine ⟨?_, ?_, ?_⟩
  · simp only [generateRecommendations, specRecommendations, List.nil_append,
      List.append_assoc]
  · simp only [generateRecommendations, List.nil_append]
    exact ite_nil_ne_nil _ _
  · have hrec : (calculateDesignFengShui [] roomType).recommendations =
        "Add more wood elements (plants, furniture) for growth energy" ::
        "Include fire elements (candles, red colors) for passion and warmth" ::
        "Add water elements (fountain, mirror) for flow and prosperity" ::
        "Incorporate earth elements (crystals, pottery) for stability" ::
        "Include metal elements (clocks, metal frames) for clarity" ::
        (if roomType = "bedroom" then ["Add plants for fresh air and positive energy"]
         else []) := by
      by_cases hb : roomType = "bedroom" <;>
        simp [calculateDesignFengShui, generateRecommendations, tallyCounts, hb]
    rw [hrec]
    simp

end IndoorAnalysis

namespace IndoorAnalysis

/-! ### Bounds lemmas -/

theorem abs_dev_sum_le (a b c d e : ℚ) (ha : 0 ≤ a) (hb : 0 ≤ b) (hc : 0 ≤ c)
    (hd : 0 ≤ d) (he : 0 ≤ e) :
    |a - (a + b + c + d + e) / 5| + |b - (a + b + c + d + e) / 5| +
      |c - (a + b + c + d + e) / 5| + |d - (a + b + c + d + e) / 5| +
      |e - (a + b + c + d + e) / 5| ≤ (8 / 5) * (a + b + c + d + e) := by
  rcases abs_cases (a - (a + b + c + d + e) / 5) with ⟨h1, _⟩ | ⟨h1, _⟩ <;>
    rcases abs_cases (b - (a + b + c + d + e) / 5) with ⟨h2, _⟩ | ⟨h2, _⟩ <;>
      rcases abs_cases (c - (a + b + c + d + e) / 5) with ⟨h3, _⟩ | ⟨h3, _⟩ <;>
        rcases abs_cases (d - (a + b + c + d + e) / 5) with ⟨h4, _⟩ | ⟨h4, _⟩ <;>
          rcases abs_cases (e - (a + b + c + d + e) / 5) with ⟨h5, _⟩ | ⟨h5, _⟩ <;>
            rw [h1, h2, h3, h4, h5] <;> linarith

theorem variance_le_total (c : ElementCounts) :
    c.variance ≤ (8 / 5) * (c.total : ℚ) := by
  simp only [ElementCounts.variance, ElementCounts.total]
  push_cast
  exact abs_dev_sum_le _ _ _ _ _ (by positivity) (by positivity) (by positivity)
    (by positivity) (by positivity)

theorem variance_nonneg (c : ElementCounts) : 0 ≤ c.variance := by
  simp only [ElementCounts.variance]
  positivity

/-- The element-balance score of any tally with at least one catalogued
item is at least 20: total imbalance (all items in one element) is the
floor of the formula. -/
theorem elementBalanceScore_min (c : ElementCounts) (h : c.total ≠ 0) :
    20 ≤ calculateElementBalanceScore c := by
  rw [calculateElementBalanceScore, if_neg h]
  apply intCast_le_jsRound
  have ht : (0 : ℚ) < (c.total : ℚ) := by exact_mod_cast Nat.pos_of_ne_zero h
  have hv := variance_le_total c
  have hdiv : c.variance / (c.total : ℚ) ≤ 8 / 5 :=
    (div_le_iff₀ ht).mpr (by linarith)
  refine le_max_of_le_right ?_
  push_cast
  linarith

theorem calculateElementBalanceScore_bounds (c : ElementCounts) :
    0 ≤ calculateElementBalanceScore c ∧ calculateElementBalanceScore c ≤ 100 := by
  rw [calculateElementBalanceScore]
  split_ifs with h
  · constructor <;> norm_num
  · have ht : (0 : ℚ) < (c.total : ℚ) := by exact_mod_cast Nat.pos_of_ne_zero h
    have hv := variance_nonneg c
    have hq : 0 ≤ c.variance / (c.total : ℚ) * 50 := by positivity
    constructor
    · exact jsRound_nonneg (le_max_left _ _)
    · apply jsRound_le_intCast
      push_cast
      exact max_le (by norm_num) (by linarith)

theorem calculateEnergyBalanceScore_cases (e : EnergyBalance) :
    calculateEnergyBalanceScore e = 50 ∨ calculateEnergyBalanceScore e = 60 ∨
      calculateEnergyBalanceScore e = 80 ∨ calculateEnergyBalanceScore e = 100 := by
  simp only [calculateEnergyBalanceScore]
  split_ifs <;> tauto

theorem calculateSpacialScore_cases (l : List PlacedItem) :
    calculateSpacialScore l = 50 ∨ calculateSpacialScore l = 65 ∨
      calculateSpacialScore l = 75 ∨ calculateSpacialScore l = 85 ∨
      calculateSpacialScore l = 90 := by
  rw [calculateSpacialScore]
  split_ifs <;> tauto

theorem calculateFunctionalScore_bounds (elements : List PlacedItem) (roomType : String) :
    60 ≤ calculateFunctionalScore elements roomType ∧
      calculateFunctionalScore elements roomType ≤ 100 := by
  simp only [calculateFunctionalScore]
  split_ifs <;> decide

/-- C9: every numeric output of the indoor scorer lies in [0, 100]:
`elementBalance` in [0, 100], `energyScore` only in {50, 60, 80, 100},
`spacialScore` only in {50, 65, 75, 85, 90}, `functionalScore` in
[60, 100], and `overallScore`, the rounded convex combination of the
four, in [0, 100]. -/
theorem claim9_score_ranges (items : List PlacedItem) (roomType : String) :
    (0 ≤ (calculateDesignFengShui items roomType).elementBalance ∧
      (calculateDesignFengShui items roomType).elementBalance ≤ 100) ∧
    ((calculateDesignFengShui items roomType).energyScore = 50 ∨
      (calculateDesignFengShui items roomType).energyScore = 60 ∨
      (calculateDesignFengShui items roomType).energyScore = 80 ∨
      (calculateDesignFengShui items roomType).energyScore = 100) ∧
    ((calculateDesignFengShui items roomType).spacialScore = 50 ∨
      (calculateDesignFengShui items roomType).spacialScore = 65 ∨
      (calculateDesignFengShui items roomType).spacialScore = 75 ∨
      (calculateDesignFengShui items roomType).spacialScore = 85 ∨
      (calculateDesignFengShui items roomType).spacialScore = 90) ∧
    (60 ≤ (calculateDesignFengShui items roomType).functionalScore ∧
      (calculateDesignFengShui items roomType).functionalScore ≤ 100) ∧
    (0 ≤ (calculateDesignFengShui items roomType).overallScore ∧
      (calculateDesignFengShui items roomType).overallScore ≤ 100) := by
  have heb := calculateElementBalanceScore_bounds (tallyCounts items).1
  have hes := calculateEnergyBalanceScore_cases (tallyCounts items).2
  have hss := calculateSpacialScore_cases items
  have hfs := calculateFunctionalScore_bounds items roomType
  have hes' : 50 ≤ calculateEnergyBalanceScore (tallyCounts items).2 ∧
      calculateEnergyBalanceScore (tallyCounts items).2 ≤ 100 := by
    rcases hes with h | h | h | h <;> rw [h] <;> norm_num
  have hss' : 50 ≤ calculateSpacialScore items ∧ calculateSpacialScore items ≤ 90 := by
    rcases hss with h | h | h | h | h <;> rw [h] <;> norm_num
  refine ⟨heb, hes, hss, ?_, ?_⟩
  · show 60 ≤ calculateFunctionalScore items roomType ∧
      calculateFunctionalScore items roomType ≤ 100
    exact hfs
  show 0 ≤ jsRound ((calculateElementBalanceScore (tallyCounts items).1 : ℚ) * (3 / 10) +
      (calculateEnergyBalanceScore (tallyCounts items).2 : ℚ) * (1 / 4) +
      (calculateSpacialScore items : ℚ) * (1 / 4) +
      (calculateFunctionalScore items roomType : ℚ) * (1 / 5)) ∧
    jsRound ((calculateElementBalanceScore (tallyCounts items).1 : ℚ) * (3 / 10) +
      (calculateEnergyBalanceScore (tallyCounts items).2 : ℚ) * (1 / 4) +
      (calculateSpacialScore items : ℚ) * (1 / 4) +
      (calculateFunctionalScore items roomType : ℚ) * (1 / 5)) ≤ 100
  have c1 : (0 : ℚ) ≤ (calculateElementBalanceScore (tallyCounts items).1 : ℚ) := by
    exact_mod_cast heb.1
  have c2 : (calculateElementBalanceScore (tallyCounts items).1 : ℚ) ≤ 100 := by
    exact_mod_cast heb.2
  have c3 : (50 : ℚ) ≤ (calculateEnergyBalanceScore (tallyCounts items).2 : ℚ) := by
    exact_mod_cast hes'.1
  have c4 : (calculateEnergyBalanceScore (tallyCounts items).2 : ℚ) ≤ 100 := by
    exact_mod_cast hes'.2
  have c5 : (50 : ℚ) ≤ (calculateSpacialScore items : ℚ) := by exact_mod_cast hss'.1
  have c6 : (calculateSpacialScore items : ℚ) ≤ 90 := by exact_mod_cast hss'.2
  have c7 : (60 : ℚ) ≤ (calculateFunctionalScore items roomType : ℚ) := by
    exact_mod_cast hfs.1
  have c8 : (calculateFunctionalScore items roomType : ℚ) ≤ 100 := by
    exact_mod_cast hfs.2
  constructor
  · exact jsRound_nonneg (by linarith)
  · apply jsRound_le_intCast
    push_cast
    linarith

end IndoorAnalysis

namespace IndoorAnalysis

/-- The 20-item all-"tv" layout of end-to-end scenario B. -/
def scenarioB : List PlacedItem := List.replicate 20 ⟨"tv", 0, 0⟩

/-- C2: on 20 placed items all of catalog type "tv" (fire/yang), the
scorer returns `elementBalance` 20 - the floor of the element-balance
formula, attained exactly at total imbalance (any tally with at least one
catalogued item scores at least 20) - `energyScore` exactly 60
(overwhelmingly yang), and recommendations that include the prompts to
add wood, water, earth and metal elements plus the clutter warning. -/
theorem claim2_scenarioB (roomType : String) :
    (calculateDesignFengShui scenarioB roomType).elementBalance = 20 ∧
    (∀ c : ElementCounts, c.total ≠ 0 → 20 ≤ calculateElementBalanceScore c) ∧
    (calculateDesignFengShui scenarioB roomType).energyScore = 60 ∧
    "Add more wood elements (plants, furniture) for growth energy" ∈
      (calculateDesignFengShui scenarioB roomType).recommendations ∧
    "Add water elements (fountain, mirror) for flow and prosperity" ∈
      (calculateDesignFengShui scenarioB roomType).recommendations ∧
    "Incorporate earth elements (crystals, pottery) for stability" ∈
      (calculateDesignFengShui scenarioB roomType).recommendations ∧
    "Include metal elements (clocks, metal frames) for clarity" ∈
      (calculateDesignFengShui scenarioB roomType).recommendations ∧
    "Consider decluttering - too many items can block energy flow" ∈
      (calculateDesignFengShui scenarioB roomType).recommendations := by
  have ht : tallyCounts scenarioB = (⟨0, 20, 0, 0, 0⟩, ⟨0, 20⟩) := by decide
  have hplant : scenarioB.any (fun e => e.type = "plant") = false := by decide
  have hmirror : scenarioB.any (fun e => e.type = "mirror") = false := by decide
  have hlen : scenarioB.length = 20 := by decide
  have hrec : (calculateDesignFengShui scenarioB roomType).recommendations =
      "Add more wood elements (plants, furniture) for growth energy" ::
      "Add water elements (fountain, mirror) for flow and prosperity" ::
      "Incorporate earth elements (crystals, pottery) for stability" ::
      "Include metal elements (clocks, metal frames) for clarity" ::
      "Balance yang energy with softer, yin elements (curtains, rugs)" ::
      ((if roomType = "bedroom" then ["Add plants for fresh air and positive energy"]
        else []) ++
       ["Consider decluttering - too many items can block energy flow"]) := by
    show generateRecommendations (tallyCounts scenarioB).1 (tallyCounts scenarioB).2
      scenarioB roomType = _
    rw [ht]
    by_cases hb : roomType = "bedroom" <;>
      norm_num [generateRecommendations, hb, hplant, hmirror, hlen] <;>
        exact fun h => absurd h (by simp)
  have h1 : (calculateDesignFengShui scenarioB roomType).elementBalance = 20 := by
    show calculateElementBalanceScore (tallyCounts scenarioB).1 = 20
    rw [ht]
    norm_num [calculateElementBalanceScore, ElementCounts.total, ElementCounts.variance,
      jsRound, max_def]
  have h2 : (calculateDesignFengShui scenarioB roomType).energyScore = 60 := by
    show calculateEnergyBalanceScore (tallyCounts scenarioB).2 = 60
    rw [ht]
    norm_num [calculateEnergyBalanceScore]
  refine ⟨h1, fun c hc => elementBalanceScore_min c hc, h2, ?_, ?_, ?_, ?_, ?_⟩ <;>
    rw [hrec] <;> simp

/-- Witness for C2: the elementBalance floor bound applied at the
all-fire tally of scenario B. -/
theorem claim2_scenarioB_witness :
    (calculateDesignFengShui scenarioB "living").elementBalance = 20 ∧
    20 ≤ calculateElementBalanceScore ⟨0, 20, 0, 0, 0⟩ :=
  ⟨(claim2_scenarioB "living").1,
   (claim2_scenarioB "living").2.1 ⟨0, 20, 0, 0, 0⟩ (by decide)⟩

end IndoorAnalysis
